import Mathlib

/-!
Shallow embedding of the Tide page-analysis engine (src/content.ts) and proofs
about it.  Pure functions of the content script are translated directly into
Lean functions; browser state (the DOM, resource-timing entries, the global
namespace, fetch results, location) is passed in explicitly as a `PageEnv`
value.  JavaScript numbers holding byte sizes are modelled as `Nat` (resource
timing sizes are non-negative integers); timing fields are `Int`.
-/

namespace Tide

/-! ## Data model (src/types.ts) -/

inductive Severity where
  | high
  | medium
  | low
deriving Repr, DecidableEq

inductive IssueType where
  | vulnerable_version
  | eval_usage
  | untrusted_domain
  | csp_violation
deriving Repr, DecidableEq

structure ScriptInfo where
  src : String
  size : Nat
  gzippedSize : Nat
  loadTime : Int
  parseTime : Int
  firstParty : Bool
  host : String
  isCDN : Bool
  async : Bool
  defer : Bool
  module : Bool
  potentiallyUnused : Bool
  hasEval : Bool
  untrustedDomain : Bool
deriving Repr, DecidableEq

structure FrameworkInfo where
  name : String
  version : Option String
  detected : Bool
deriving Repr, DecidableEq

structure LibraryInfo where
  name : String
  version : Option String
  detected : Bool
deriving Repr, DecidableEq

structure PerformanceMetrics where
  longTasks : Nat
  scriptLoadTime : Int
  scriptParseTime : Int
  timeToInteractive : Int
  mainThreadBlockingTime : Int
deriving Repr, DecidableEq

structure SecurityIssue where
  type : IssueType
  severity : Severity
  message : String
  script : Option String
  library : Option String
  version : Option String
deriving Repr, DecidableEq

structure AnalysisData where
  scripts : List ScriptInfo
  frameworks : List FrameworkInfo
  libraries : List LibraryInfo
  performance : PerformanceMetrics
  totalSize : Nat
  totalGzippedSize : Nat
  firstPartySize : Nat
  thirdPartySize : Nat
  firstPartyCount : Nat
  thirdPartyCount : Nat
  cdnCount : Nat
  cdnSize : Nat
  securityIssues : List SecurityIssue
  timestamp : Nat
deriving Repr, DecidableEq

/-! ## Browser environment

`PerfEntry` models a `PerformanceResourceTiming` record, `ScriptTagInfo` a
`<script src=...>` element (an element with no `src` attribute reflects as the
empty string), and `PageEnv` the whole per-page state the content script
reads: location, DOM script elements, resource-timing list, the set of names
present on `window` (for the `key in window` probe), the outcome of `fetch`
(`some body` when the response is ok, `none` when the fetch fails or the
response is not ok), the outcome of the framework-detector global probes, and
the evaluation results of the ten library-detector predicates (`.error ()`
models a predicate that throws). -/

structure PerfEntry where
  name : String
  initiatorType : String
  transferSize : Nat
  decodedBodySize : Nat
  encodedBodySize : Nat
  startTime : Int
  responseEnd : Int
  duration : Int
deriving Repr, DecidableEq

structure ScriptTagInfo where
  src : String
  async : Bool
  defer : Bool
  typeAttr : String
deriving Repr, DecidableEq

structure NavEntry where
  domContentLoadedEventEnd : Int
  domContentLoadedEventStart : Int
  loadEventEnd : Int
  loadEventStart : Int
  domInteractive : Int
  fetchStart : Int
deriving Repr, DecidableEq

/-- One entry of the `libraryDetectors` table in `detectLibraries`, with the
predicate and version getter already evaluated against the page globals:
`fires = .error ()` models a predicate whose evaluation throws. -/
structure LibraryDetector where
  name : String
  fires : Except Unit Bool
  versionResult : Option String

structure PageEnv where
  locationHref : String
  locationHostname : String
  locationOrigin : String
  inlineScriptTexts : List String
  scriptTags : List ScriptTagInfo
  perfEntries : List PerfEntry
  navEntry : Option NavEntry
  globalKeys : List String
  fetchOk : String → Option String
  frameworks : List FrameworkInfo
  libraryDetectors : List LibraryDetector
  hasCSPMeta : Bool
  hasCSPNameMeta : Bool
  longTasksDelivered : Nat
  blockingTimeDelivered : Int
  timestampNow : Nat

/-! ## String helpers

Executable models of the JavaScript string operations the analysis uses,
written over the character list of the string so that every definition in
this file evaluates by computation. -/

/-- JavaScript `String.prototype.includes` (substring containment). -/
def strContains (s sub : String) : Bool :=
  s.toList.tails.any (fun t => sub.toList.isPrefixOf t)

/-- Model of `String.prototype.startsWith`. -/
def strStartsWith (s pre : String) : Bool :=
  pre.data.isPrefixOf s.data

/-- Model of `String.prototype.endsWith`. -/
def strEndsWith (s suf : String) : Bool :=
  suf.data.isSuffixOf s.data

def splitCharAux (sep : Char) : List Char → List Char → List String
  | [], acc => [String.mk acc.reverse]
  | c :: cs, acc =>
    if c == sep then String.mk acc.reverse :: splitCharAux sep cs []
    else splitCharAux sep cs (c :: acc)

/-- Model of `String.prototype.split` with a single-character separator (the only
form the analysis uses: `'.'`, `'-'`, `'/'` and `','`). -/
def splitOnChar (sep : Char) (s : String) : List String :=
  splitCharAux sep s.data []

/-- Model of `String.prototype.toLowerCase` (ASCII, as in the hostnames and library
names compared here). -/
def strToLower (s : String) : String :=
  String.mk (s.data.map Char.toLower)

/-- Model of `String.prototype.trim`. -/
def strTrim (s : String) : String :=
  String.mk (((s.data.dropWhile Char.isWhitespace).reverse.dropWhile
    Char.isWhitespace).reverse)

/-- JavaScript `Number` restricted to the version components appearing
here: a non-empty string of decimal digits is its value, anything else
(including the empty string and any non-numeric text) is `none`; call sites
read a `none` as `0`, matching the `|| 0` defaults applied to `NaN` and to
`Number("") = 0`. -/
def strToNatOpt (s : String) : Option Nat :=
  if !s.data.isEmpty && s.data.all (fun c => c.isDigit) then
    some (s.data.foldl (fun n c => n * 10 + (c.toNat - 48)) 0)
  else none

def strDropN (s : String) (n : Nat) : String :=
  String.mk (s.data.drop n)

def strTakeWhileP (s : String) (p : Char → Bool) : String :=
  String.mk (s.data.takeWhile p)

def joinWith (sep : String) : List String → String
  | [] => ""
  | [x] => x
  | x :: xs => x ++ sep ++ joinWith sep xs

/-- Stable insertion sort by name, modelling
`libraries.sort((a, b) => a.name.localeCompare(b.name))`. -/
def insertByName (x : LibraryInfo) : List LibraryInfo → List LibraryInfo
  | [] => [x]
  | y :: ys =>
    if strToLower x.name ≤ strToLower y.name then x :: y :: ys
    else y :: insertByName x ys

def sortByName (l : List LibraryInfo) : List LibraryInfo :=
  l.foldr insertByName []

/-! ## URL model

Models the browser URL constructor on the fragment of inputs the analysis
uses: absolute `http://` / `https://` URLs (scheme, lower-cased hostname and
a path; ports, query strings, userinfo and other schemes are not modelled)
and the resolution of a relative string against an absolute base.  A string
with no scheme fails absolute parsing, exactly as `new URL(s)` with no base
throws for it. -/

structure URLInfo where
  scheme : String
  hostname : String
  pathname : String
deriving Repr, DecidableEq

def URLInfo.origin (u : URLInfo) : String := u.scheme ++ "://" ++ u.hostname

def URLInfo.href (u : URLInfo) : String :=
  u.scheme ++ "://" ++ u.hostname ++ u.pathname

def parseWithScheme (scheme s : String) : Option URLInfo :=
  if strStartsWith s (scheme ++ "://") then
    let rest := strDropN s (scheme.length + 3)
    let host := strTakeWhileP rest (fun c => !(c == '/' || c == '?' || c == '#'))
    if host.isEmpty then none
    else
      let path := strTakeWhileP (strDropN rest host.length)
        (fun c => !(c == '?' || c == '#'))
      some { scheme := scheme,
             hostname := strToLower host,
             pathname := if path.isEmpty then "/" else path }
  else none

def parseAbsoluteURL (s : String) : Option URLInfo :=
  match parseWithScheme "https" s with
  | some u => some u
  | none => parseWithScheme "http" s

/-- Directory part of a pathname, up to and including the last `/`. -/
def dirOfPath (p : String) : String :=
  ((splitOnChar '/' p).dropLast).foldr (fun seg acc => seg ++ "/" ++ acc) ""

/-- Model of `new URL(s, base)`: absolute strings parse on their own; otherwise `s` is
resolved against `base` (path-absolute or relative to the base directory).
`../` segments and query strings in the relative part are not modelled. -/
def parseURLWithBase (s base : String) : Option URLInfo :=
  match parseAbsoluteURL s with
  | some u => some u
  | none =>
    match parseAbsoluteURL base with
    | none => none
    | some b =>
      if strStartsWith s "/" then some { b with pathname := s }
      else some { b with pathname := "/" ++ dirOfPath (b.pathname.drop 1) ++ s }

/-! ## Dynamic-code-execution pattern set

Executable model of the six regexes tested against script text:
`/\beval\s*\(/`, `/\bFunction\s*\(/`, `/\bnew\s+Function\s*\(/`,
the string-argument timer patterns for setTimeout and setInterval, and
`/\bexecScript\s*\(/`.  `\w` is `[A-Za-z0-9_]`; `\s` is modelled by the
common whitespace characters. -/

def isWordChar (c : Char) : Bool :=
  (c.isAlpha && c.toNat < 128) || c.isDigit || c == '_'

def isSpaceChar (c : Char) : Bool :=
  c == ' ' || c == '\t' || c == '\n' || c == '\r' ||
    c.toNat == 11 || c.toNat == 12

/-- Match a literal string at the head of the input, returning the rest. -/
def dropLiteral : List Char → List Char → Option (List Char)
  | [], s => some s
  | _ :: _, [] => none
  | c :: cs, d :: ds => if c == d then dropLiteral cs ds else none

/-- Skip `\s*`. -/
def skipSpaces : List Char → List Char
  | [] => []
  | c :: cs => if isSpaceChar c then skipSpaces cs else c :: cs

/-- Skip `\s+` (at least one whitespace character). -/
def skipSpaces1 : List Char → Option (List Char)
  | [] => none
  | c :: cs => if isSpaceChar c then some (skipSpaces cs) else none

def headIs (c : Char) : List Char → Bool
  | [] => false
  | d :: _ => c == d

/-- A double or single quote. -/
def headIsQuote : List Char → Bool
  | [] => false
  | d :: _ => d == '"' || d.toNat == 39

/-- Match `NAME\s*\(` at this position. -/
def matchNameParen (name : String) (s : List Char) : Bool :=
  match dropLiteral name.toList s with
  | some rest => headIs '(' (skipSpaces rest)
  | none => false

/-- Match `new\s+Function\s*\(` at this position. -/
def matchNewFunction (s : List Char) : Bool :=
  match dropLiteral "new".toList s with
  | some r1 =>
    match skipSpaces1 r1 with
    | some r2 =>
      match dropLiteral "Function".toList r2 with
      | some r3 => headIs '(' (skipSpaces r3)
      | none => false
    | none => false
  | none => false

/-- Match `NAME\s*\(\s*` followed by a quote at this position. -/
def matchTimerString (name : String) (s : List Char) : Bool :=
  match dropLiteral name.toList s with
  | some r1 =>
    match skipSpaces r1 with
    | '(' :: r2 => headIsQuote (skipSpaces r2)
    | _ => false
  | none => false

/-- Any of the six patterns, anchored at this position (the `\b` boundary is
checked by the caller). -/
def patternAt (s : List Char) : Bool :=
  matchNameParen "eval" s || matchNameParen "Function" s ||
    matchNewFunction s || matchTimerString "setTimeout" s ||
    matchTimerString "setInterval" s || matchNameParen "execScript" s

def boundaryBefore : Option Char → Bool
  | none => true
  | some c => !isWordChar c

/-- Scan every position of the text; all six patterns start with a word
character, so the `\b` boundary holds exactly when the previous character is
absent or a non-word character. -/
def scanPatterns : Option Char → List Char → Bool
  | _, [] => false
  | prev, c :: rest =>
    (boundaryBefore prev && patternAt (c :: rest)) || scanPatterns (some c) rest

/-- Test `evalPatterns.some(p => p.test(text))`. -/
def hasAnyEvalPattern (text : String) : Bool :=
  scanPatterns none text.data

/-! ## Classification helpers (src/content.ts lines 138-179, 479-490) -/

def trustedDomains : List String :=
  ["googleapis.com", "gstatic.com", "cloudflare.com", "jsdelivr.net",
   "unpkg.com", "cdnjs.com", "cdnjs.cloudflare.com", "bootstrapcdn.com",
   "cdn.jsdelivr.net"]

def isUntrustedDomain (host : String) (firstParty : Bool) : Bool :=
  if firstParty then false
  else if host.isEmpty then true
  else !(trustedDomains.any (fun trusted => strContains host trusted))

def cdnHosts : List String :=
  ["cdn.", "cloudflare.com", "unpkg.com", "jsdelivr.net", "googleapis.com",
   "gstatic.com", "akamaihd.net", "fastly.net", "bootstrapcdn.com",
   "cdnjs.com"]

/-- Model of `inferGlobalKey` (src/content.ts lines 138-148): last path segment of the
resolved URL, its part before the first `.`, keeping only
`[a-zA-Z0-9_$]` characters; `none` when shorter than 3 or unparsable. -/
def inferGlobalKey (env : PageEnv) (src : String) : Option String :=
  match parseURLWithBase src env.locationHref with
  | none => none
  | some url =>
    let file := ((splitOnChar '/' url.pathname).getLast?).getD ""
    let base := ((splitOnChar '.' file).head?).getD ""
    let cleaned := String.mk (base.toList.filter
      (fun c => (c.isAlpha && c.toNat < 128) || c.isDigit || c == '_' || c == '$'))
    if cleaned.length ≥ 3 then some cleaned else none

/-- Model of `isLikelyUnused` (src/content.ts lines 150-161).  The `key in win` probe
is modelled by membership in `env.globalKeys` (the code treats a throwing
probe like a present key: both return `false`). -/
def isLikelyUnused (env : PageEnv) (firstParty : Bool) (src : String) : Bool :=
  if firstParty then false
  else
    match inferGlobalKey env src with
    | none => false
    | some key => if env.globalKeys.contains key then false else true

/-! ## Vulnerability table and version comparison (src/content.ts 181-259) -/

structure VulnerableVersion where
  library : String
  versions : List String
  severity : Severity
  description : String
deriving Repr, DecidableEq

def vulnerableVersions : List VulnerableVersion :=
  [{ library := "jQuery",
     versions := ["1.0.0", "1.1.0", "1.2.0", "1.3.0", "1.4.0", "1.5.0",
       "1.6.0", "1.7.0", "1.8.0", "1.9.0", "1.10.0", "1.11.0", "1.12.0",
       "2.0.0", "2.1.0", "2.2.0", "3.0.0", "3.1.0", "3.2.0", "3.3.0",
       "3.4.0"],
     severity := .high,
     description := "jQuery versions before 3.5.0 have XSS vulnerabilities" },
   { library := "Lodash",
     versions := ["4.17.0", "4.17.1", "4.17.2", "4.17.3", "4.17.4", "4.17.5",
       "4.17.6", "4.17.7", "4.17.8", "4.17.9", "4.17.10", "4.17.11",
       "4.17.12", "4.17.13", "4.17.14", "4.17.15", "4.17.16", "4.17.17",
       "4.17.18", "4.17.19"],
     severity := .high,
     description := "Lodash versions before 4.17.21 have prototype pollution vulnerabilities" },
   { library := "Moment.js",
     versions := ["2.0.0", "2.1.0", "2.2.0", "2.3.0", "2.4.0", "2.5.0",
       "2.6.0", "2.7.0", "2.8.0", "2.9.0", "2.10.0", "2.11.0", "2.12.0",
       "2.13.0", "2.14.0", "2.15.0", "2.16.0", "2.17.0", "2.18.0", "2.19.0"],
     severity := .medium,
     description := "Moment.js versions before 2.29.0 have ReDoS vulnerabilities" },
   { library := "Angular",
     versions := ["1.0.0", "1.1.0", "1.2.0", "1.3.0", "1.4.0", "1.5.0",
       "1.6.0"],
     severity := .high,
     description := "AngularJS 1.x versions have multiple XSS and security vulnerabilities" },
   { library := "React",
     versions := ["0.0.0", "0.1.0", "0.2.0", "0.3.0", "0.4.0", "0.5.0",
       "0.6.0", "0.7.0", "0.8.0", "0.9.0", "0.10.0", "0.11.0", "0.12.0",
       "0.13.0", "0.14.0", "15.0.0", "15.1.0", "15.2.0", "15.3.0", "15.4.0",
       "15.5.0", "15.6.0"],
     severity := .medium,
     description := "React versions before 15.6.1 have XSS vulnerabilities" }]

/-- One version component as used by the comparison loop.  The source maps
each dot-separated component through `Number` and then reads it as
`v1parts[i] || 0`: a component that is a plain digit string keeps its value,
while the empty string (`Number("") = 0`) and any non-numeric component
(`NaN`, which is falsy) are both read as `0`.  `String.toNat?` models
`Number` on digit strings, with everything else falling to the `|| 0`
default. -/
def versionPartValue (s : String) : Nat :=
  (strToNatOpt s).getD 0

def versionParts (v : String) : List Nat :=
  (splitOnChar '.' v).map versionPartValue

/-- Tail of the comparison loop once the first version has run out of
components: each remaining component of the second version is compared
against `0`. -/
def cmpZeros : List Nat → Int
  | [] => 0
  | b :: bs => if 0 > b then 1 else if 0 < b then -1 else cmpZeros bs

/-- The comparison loop of `compareVersions`: components compared pairwise,
missing trailing components read as `0`. -/
def cmpParts : List Nat → List Nat → Int
  | [], bs => cmpZeros bs
  | a :: as, [] => if a > 0 then 1 else cmpParts as []
  | a :: as, b :: bs =>
    if a > b then 1 else if a < b then -1 else cmpParts as bs

/-- Model of `compareVersions` (src/content.ts lines 221-234). -/
def compareVersions (version1 version2 : String) : Int :=
  cmpParts (versionParts version1) (versionParts version2)

/-- Normalization `library.version.split(hyphen)[0].trim()`. -/
def normalizeLibVersion (version : String) : String :=
  strTrim (((splitOnChar '-' version).head?).getD "")

/-- The per-listed-version test body of `isVersionVulnerable`: exact match,
match as a dotted prefix, or ordinal comparison at most equal. -/
def versionTriggers (libVersion vulnVersion : String) : Bool :=
  libVersion == vulnVersion ||
    strStartsWith libVersion (vulnVersion ++ ".") ||
    decide (compareVersions libVersion vulnVersion ≤ 0)

/-- The rule loop of `isVersionVulnerable`: first rule with a triggering
listed version wins. -/
def findVulnRule (libVersion : String) :
    List VulnerableVersion → Option VulnerableVersion
  | [] => none
  | vuln :: rest =>
    if vuln.versions.any (fun vv => versionTriggers libVersion vv) then
      some vuln
    else findVulnRule libVersion rest

/-- Model of `isVersionVulnerable` (src/content.ts lines 236-259). -/
def isVersionVulnerable (library : LibraryInfo)
    (rules : List VulnerableVersion) : Option VulnerableVersion :=
  match library.version with
  | none => none
  | some version =>
    let libVulns := rules.filter
      (fun v => strToLower v.library == strToLower library.name)
    if libVulns.isEmpty then none
    else findVulnRule (normalizeLibVersion version) libVulns

/-! ## Framework and library detection (src/content.ts 69-136) -/

/-- Probing for `detectFrameworks` reads `window` and the DOM; the outcome of those
probes is part of the environment. -/
def detectFrameworks (env : PageEnv) : List FrameworkInfo :=
  env.frameworks

/-- The `for` loop of `detectLibraries`: each detector predicate runs with
no surrounding try/catch, so a predicate that throws propagates its exception
out of the whole pass. -/
def runLibraryDetectors :
    List LibraryDetector → Except Unit (List LibraryInfo)
  | [] => .ok []
  | d :: rest =>
    match d.fires with
    | .error e => .error e
    | .ok true =>
      match runLibraryDetectors rest with
      | .error e => .error e
      | .ok libs =>
        .ok ({ name := d.name, version := d.versionResult,
               detected := true } :: libs)
    | .ok false => runLibraryDetectors rest

/-- Model of `detectLibraries` (src/content.ts lines 108-136).  The final
`localeCompare` sort is modelled as a code-point sort on names. -/
def detectLibraries (dets : List LibraryDetector) :
    Except Unit (List LibraryInfo) :=
  match runLibraryDetectors dets with
  | .error e => .error e
  | .ok libraries => .ok (sortByName libraries)

/-! ## Resource reconciliation (`collectScriptInfo`, src/content.ts 428-608) -/

/-- The script filter of the timing loop (src/content.ts lines 495-499). -/
def isScriptEntry (e : PerfEntry) : Bool :=
  e.initiatorType == "script" || strEndsWith e.name ".js" ||
    strContains e.name ".js?" || strContains e.name ".mjs" ||
    strContains e.name "javascript"

/-- One step of the `scriptMap` deduplication (src/content.ts 502-506): a
later entry with the same name replaces the kept one when its transferred
size or its decoded body size is strictly larger.  The map is an insertion
ordered association list with unique keys, like a JS `Map`. -/
def scriptMapInsert (m : List (String × PerfEntry)) (e : PerfEntry) :
    List (String × PerfEntry) :=
  match m.find? (fun p => p.1 == e.name) with
  | none => m ++ [(e.name, e)]
  | some existing =>
    if e.transferSize > existing.2.transferSize ||
        e.decodedBodySize > existing.2.decodedBodySize then
      m.map (fun p => if p.1 == e.name then (e.name, e) else p)
    else m

def buildScriptMap (entries : List PerfEntry) : List (String × PerfEntry) :=
  entries.foldl
    (fun m e => if isScriptEntry e then scriptMapInsert m e else m) []

/-- The size fallback chains (src/content.ts 510-518 and 560-568):
uncompressed size prefers decoded, then encoded, then transferred; compressed
size prefers transferred, then encoded, then decoded; each side falls back to
the other when it resolves to zero. -/
def resolveSizes (e : PerfEntry) : Nat × Nat :=
  let transferSize := e.transferSize
  let decodedSize := e.decodedBodySize
  let encodedSize := e.encodedBodySize
  let uncompressedSize :=
    if decodedSize > 0 then decodedSize
    else if encodedSize > 0 then encodedSize else transferSize
  let compressedSize :=
    if transferSize > 0 then transferSize
    else if encodedSize > 0 then encodedSize else decodedSize
  let size := if uncompressedSize > 0 then uncompressedSize else compressedSize
  let gzippedSize := if compressedSize > 0 then compressedSize else size
  (size, gzippedSize)

/-- Host classification with its catch-all: a source that fails URL parsing
leaves `host = ""`, `firstParty = false`, `isCDN = false`
(src/content.ts 520-529 and 570-579). -/
def classifyHost (env : PageEnv) (parsed : Option URLInfo) :
    String × Bool × Bool :=
  match parsed with
  | none => ("", false, false)
  | some url =>
    (url.hostname,
     url.hostname == env.locationHostname,
     cdnHosts.any (fun h => strContains url.hostname h))

/-- The `scriptAttrMap` lookup (built at src/content.ts 467-477): tags with a
non-empty `src` are written in document order into a JS `Map`, so the last
tag with a given `src` wins. -/
def scriptAttrLookup (tags : List ScriptTagInfo) (src : String) :
    Bool × Bool × Bool :=
  match (tags.filter (fun t => !t.src.isEmpty && t.src == src)).getLast? with
  | none => (false, false, false)
  | some t => (t.async, t.defer, t.typeAttr == "module")

/-- The inline-script record pushed at src/content.ts 447-462. -/
def mkInlineScript (env : PageEnv) (text : String) : ScriptInfo :=
  { src := "inline",
    size := text.length,
    gzippedSize := text.length,
    loadTime := 0,
    parseTime := 0,
    firstParty := true,
    host := env.locationHostname,
    isCDN := false,
    async := false,
    defer := false,
    module := false,
    potentiallyUnused := false,
    hasEval := true,
    untrustedDomain := false }

/-- The inline-script loop (src/content.ts 434-465): a non-empty text whose
content matches one of the dynamic-code patterns is recorded, everything
else is skipped. -/
def inlinePass (env : PageEnv) : List ScriptInfo :=
  env.inlineScriptTexts.filterMap (fun text =>
    if !text.isEmpty then
      if hasAnyEvalPattern text then some (mkInlineScript env text) else none
    else none)

/-- Body of the kept-timing-entries loop (src/content.ts 509-553); `none`
when the resolved size is zero and the candidate is dropped. -/
def processTimingEntry (env : PageEnv) (e : PerfEntry) : Option ScriptInfo :=
  let sizes := resolveSizes e
  let cls := classifyHost env (parseAbsoluteURL e.name)
  let attrs := scriptAttrLookup env.scriptTags e.name
  if sizes.1 > 0 then
    some { src := e.name,
           size := sizes.1,
           gzippedSize := sizes.2,
           loadTime := e.responseEnd - e.startTime,
           parseTime := max 0 (e.duration - (e.responseEnd - e.startTime)),
           firstParty := cls.2.1,
           host := cls.1,
           isCDN := cls.2.2,
           async := attrs.1,
           defer := attrs.2.1,
           module := attrs.2.2,
           potentiallyUnused := isLikelyUnused env cls.2.1 e.name,
           hasEval := false,
           untrustedDomain := isUntrustedDomain cls.1 cls.2.1 }
  else none

def timingPass (env : PageEnv) : List ScriptInfo :=
  ((buildScriptMap env.perfEntries).map Prod.snd).filterMap
    (processTimingEntry env)

/-- Body of the second-pass per-tag loop (src/content.ts 555-605),
classifying with the base-relative URL parse. -/
def processTagEntry (env : PageEnv) (src : String) (pe : PerfEntry) :
    Option ScriptInfo :=
  let sizes := resolveSizes pe
  let cls := classifyHost env (parseURLWithBase src env.locationHref)
  let attrs := scriptAttrLookup env.scriptTags src
  if sizes.1 > 0 then
    some { src := src,
           size := sizes.1,
           gzippedSize := sizes.2,
           loadTime := pe.responseEnd - pe.startTime,
           parseTime := max 0 (pe.duration - (pe.responseEnd - pe.startTime)),
           firstParty := cls.2.1,
           host := cls.1,
           isCDN := cls.2.2,
           async := attrs.1,
           defer := attrs.2.1,
           module := attrs.2.2,
           potentiallyUnused := isLikelyUnused env cls.2.1 src,
           hasEval := false,
           untrustedDomain := isUntrustedDomain cls.1 cls.2.1 }
  else none

/-- Serialization of `new URL(src, location.href).href` used by the
second-pass timing lookup. -/
def resolvedHref (env : PageEnv) (src : String) : String :=
  match parseURLWithBase src env.locationHref with
  | some u => u.href
  | none => src

/-- The second pass over declared script tags (src/content.ts 555-605):
tags whose `src` is missing from the dedup map are matched against the raw
timing list by exact or resolved-absolute URL equality. -/
def tagPass (env : PageEnv) : List ScriptInfo :=
  let sm := buildScriptMap env.perfEntries
  env.scriptTags.filterMap (fun tag =>
    if !tag.src.isEmpty && !(sm.any (fun p => p.1 == tag.src)) then
      match env.perfEntries.find?
          (fun e => e.name == tag.src ||
            e.name == resolvedHref env tag.src) with
      | none => none
      | some pe => processTagEntry env tag.src pe
    else none)

/-- Model of `collectScriptInfo` (src/content.ts 428-608): inline scripts, then the
deduplicated timing entries, then the second-pass tag matches. -/
def collectScriptInfo (env : PageEnv) : List ScriptInfo :=
  inlinePass env ++ timingPass env ++ tagPass env

/-! ## Eval scanning (src/content.ts 261-309, 610-623) -/

/-- The `data:` URL body: the part after the first comma
(the part of `scriptSrc` between the first and second comma, with
`decodeURIComponent` modelled as the
identity on the already-decoded text). -/
def dataURLBody (scriptSrc : String) : String :=
  ((splitOnChar ',' scriptSrc).getD 1 "")

/-- Model of `checkScriptForEval` (src/content.ts 261-309): `data:` sources are
pattern-checked on their decoded body; an unresolvable URL, a cross-origin
URL or a failed/not-ok fetch all yield `false`; a fetched same-origin body is
pattern-checked. -/
def checkScriptForEval (env : PageEnv) (scriptSrc : String) : Bool :=
  if scriptSrc.isEmpty || strStartsWith scriptSrc "data:" ||
      strStartsWith scriptSrc "blob:" then
    if strStartsWith scriptSrc "data:" then
      hasAnyEvalPattern (dataURLBody scriptSrc)
    else false
  else
    match parseURLWithBase scriptSrc env.locationHref with
    | none => false
    | some scriptUrl =>
      if !(scriptUrl.origin == env.locationOrigin) then false
      else
        match env.fetchOk scriptSrc with
        | none => false
        | some text => hasAnyEvalPattern text

/-- Model of `checkScriptsForEval` (src/content.ts 610-623): every script whose `src`
is non-empty and not a `data:`/`blob:` URL has its `hasEval` field
overwritten with the fetch-check result — including the `"inline"` sentinel
records. -/
def checkScriptsForEval (env : PageEnv) (scripts : List ScriptInfo) :
    List ScriptInfo :=
  scripts.map (fun script =>
    if !script.src.isEmpty && !(strStartsWith script.src "data:") &&
        !(strStartsWith script.src "blob:") then
      { script with hasEval := checkScriptForEval env script.src }
    else script)

/-! ## Security findings (src/content.ts 311-367) -/

def optVersionText : Option String → String
  | some v => v
  | none => "null"

/-- Field `dep.version || undefined`: a null or empty version leaves the optional
field unset. -/
def versionFieldOf : Option String → Option String
  | some v => if v.isEmpty then none else some v
  | none => none

def untrustedMessage (n : Nat) : String :=
  toString n ++ " script" ++ (if n != 1 then "s" else "") ++
    " loaded from untrusted domain" ++ (if n != 1 then "s" else "")

/-- Model of `detectSecurityIssues` (src/content.ts 311-367). -/
def detectSecurityIssues (env : PageEnv) (scripts : List ScriptInfo)
    (libraries : List LibraryInfo) (frameworks : List FrameworkInfo) :
    List SecurityIssue :=
  let untrustedScripts := scripts.filter (fun s => s.untrustedDomain)
  let untrustedIssues :=
    if untrustedScripts.length > 0 then
      [{ type := .untrusted_domain,
         severity := .medium,
         message := untrustedMessage untrustedScripts.length,
         script := (untrustedScripts.head?).map (fun s => s.src),
         library := none,
         version := none }]
    else []
  let allDependencies :=
    libraries.map (fun l => (l.name, l.version)) ++
      frameworks.map (fun f => (f.name, f.version))
  let vulnIssues := allDependencies.filterMap (fun dep =>
    match isVersionVulnerable
        { name := dep.1, version := dep.2, detected := true }
        vulnerableVersions with
    | some vuln =>
      some { type := .vulnerable_version,
             severity := vuln.severity,
             message := dep.1 ++ " version " ++ optVersionText dep.2 ++
               " has known vulnerabilities: " ++ vuln.description,
             script := none,
             library := some dep.1,
             version := versionFieldOf dep.2 }
    | none => none)
  let evalIssues := scripts.filterMap (fun script =>
    if script.hasEval then
      some { type := .eval_usage,
             severity := .high,
             message := "Script uses eval() or similar dangerous functions: "
               ++ (((splitOnChar '/' script.src).getLast?).getD ""),
             script := some script.src,
             library := none,
             version := none }
    else none)
  let cspIssues :=
    if !env.hasCSPMeta && !env.hasCSPNameMeta then
      [{ type := .csp_violation,
         severity := .low,
         message := "No Content Security Policy detected",
         script := none,
         library := none,
         version := none }]
    else []
  untrustedIssues ++ vulnIssues ++ evalIssues ++ cspIssues

/-! ## Performance metrics (src/content.ts 369-426) -/

/-- Model of `collectPerformanceMetrics`: long-task counts and blocking time come from
the asynchronous observer, so the snapshot sees whatever samples were
delivered by construction time (an environment input); load and parse time
are summed over the filtered timing entries. -/
def collectPerformanceMetrics (env : PageEnv) : PerformanceMetrics :=
  let scriptEntries := env.perfEntries.filter (fun e =>
    e.initiatorType == "script" || strEndsWith e.name ".js" ||
      strContains e.name "javascript")
  let totalLoadTime := scriptEntries.foldl
    (fun acc e => acc + (e.responseEnd - e.startTime)) 0
  let totalParseTime := scriptEntries.foldl
    (fun acc e =>
      acc + max 0 (e.duration - (e.responseEnd - e.startTime))) 0
  { longTasks := env.longTasksDelivered,
    scriptLoadTime := totalLoadTime,
    scriptParseTime := totalParseTime,
    timeToInteractive :=
      match env.navEntry with
      | none => 0
      | some nav =>
        if nav.domInteractive != 0 then nav.domInteractive - nav.fetchStart
        else 0,
    mainThreadBlockingTime := env.blockingTimeDelivered }

/-! ## Aggregation (`analyzePage`, src/content.ts 625-662) -/

def sumSizes (scripts : List ScriptInfo) : Nat :=
  scripts.foldl (fun sum s => sum + s.size) 0

def sumGzippedSizes (scripts : List ScriptInfo) : Nat :=
  scripts.foldl (fun sum s => sum + s.gzippedSize) 0

/-- Model of `analyzePage` (src/content.ts 625-662).  A library-detector predicate
that throws propagates: the pass rejects and no snapshot is produced. -/
def analyzePage (env : PageEnv) : Except Unit AnalysisData :=
  let scripts0 := collectScriptInfo env
  let frameworks := detectFrameworks env
  match detectLibraries env.libraryDetectors with
  | .error e => .error e
  | .ok libraries =>
    let performance := collectPerformanceMetrics env
    let scripts := checkScriptsForEval env scripts0
    let totalSize := sumSizes scripts
    let totalGzippedSize := sumGzippedSizes scripts
    let firstPartySize := sumSizes (scripts.filter (fun s => s.firstParty))
    let thirdPartySize := sumSizes (scripts.filter (fun s => !s.firstParty))
    let firstPartyCount := (scripts.filter (fun s => s.firstParty)).length
    let thirdPartyCount := (scripts.filter (fun s => !s.firstParty)).length
    let cdnScripts := scripts.filter (fun s => s.isCDN)
    let securityIssues := detectSecurityIssues env scripts libraries frameworks
    .ok { scripts := scripts,
          frameworks := frameworks,
          libraries := libraries.take 5,
          performance := performance,
          totalSize := totalSize,
          totalGzippedSize := totalGzippedSize,
          firstPartySize := firstPartySize,
          thirdPartySize := thirdPartySize,
          firstPartyCount := firstPartyCount,
          thirdPartyCount := thirdPartyCount,
          cdnCount := cdnScripts.length,
          cdnSize := sumSizes cdnScripts,
          securityIssues := securityIssues,
          timestamp := env.timestampNow }

/-! ## Claim-side definitions for the unused-script heuristic

`claimUnusedFlag` follows the words of the claim about the potentially-unused
flag: take the final path segment, strip *its extension* (remove the part
from the last dot on), keep only alphanumerics, underscore and dollar, and,
when at least 3 characters remain, flag exactly the identifiers absent from
the global namespace.  `amendedUnusedFlag` is the same procedure with the
one change the code forces: the segment is cut at its *first* dot rather
than having its last extension stripped. -/

def keepIdentChars (s : String) : String :=
  String.mk (s.toList.filter
    (fun c => (c.isAlpha && c.toNat < 128) || c.isDigit || c == '_' || c == '$'))

def lastPathSegment (pathname : String) : String :=
  ((splitOnChar '/' pathname).getLast?).getD ""

/-- Remove the extension: everything from the last dot on (the segment is
unchanged when it has no dot). -/
def stripLastExtension (file : String) : String :=
  let parts := splitOnChar '.' file
  if parts.length ≤ 1 then file
  else joinWith "." parts.dropLast

/-- Keep only the part before the first dot. -/
def beforeFirstDot (file : String) : String :=
  ((splitOnChar '.' file).head?).getD ""

def claimUnusedKey (env : PageEnv) (src : String) : Option String :=
  match parseURLWithBase src env.locationHref with
  | none => none
  | some url =>
    let ident := keepIdentChars (stripLastExtension (lastPathSegment url.pathname))
    if ident.length ≥ 3 then some ident else none

def claimUnusedFlag (env : PageEnv) (firstParty : Bool) (src : String) : Bool :=
  if firstParty then false
  else
    match claimUnusedKey env src with
    | none => false
    | some key => !(env.globalKeys.contains key)

def amendedUnusedKey (env : PageEnv) (src : String) : Option String :=
  match parseURLWithBase src env.locationHref with
  | none => none
  | some url =>
    let ident := keepIdentChars (beforeFirstDot (lastPathSegment url.pathname))
    if ident.length ≥ 3 then some ident else none

def amendedUnusedFlag (env : PageEnv) (firstParty : Bool) (src : String) : Bool :=
  if firstParty then false
  else
    match amendedUnusedKey env src with
    | none => false
    | some key => !(env.globalKeys.contains key)

/-! ## Concrete environments and inputs used by the witnesses and
counterexamples -/

/-- A page at `https://example.com/page` with no scripts, no detections, a
CSP meta tag present and every fetch failing. -/
def pageEnvSimple : PageEnv :=
  { locationHref := "https://example.com/page",
    locationHostname := "example.com",
    locationOrigin := "https://example.com",
    inlineScriptTexts := [],
    scriptTags := [],
    perfEntries := [],
    navEntry := none,
    globalKeys := [],
    fetchOk := fun _ => none,
    frameworks := [],
    libraryDetectors := [],
    hasCSPMeta := true,
    hasCSPNameMeta := false,
    longTasksDelivered := 0,
    blockingTimeDelivered := 0,
    timestampNow := 0 }

def fallbackSnapshot : AnalysisData :=
  { scripts := [], frameworks := [], libraries := [],
    performance := ⟨0, 0, 0, 0, 0⟩,
    totalSize := 0, totalGzippedSize := 0, firstPartySize := 0,
    thirdPartySize := 0, firstPartyCount := 0, thirdPartyCount := 0,
    cdnCount := 0, cdnSize := 0, securityIssues := [], timestamp := 0 }

def forcedOk (r : Except Unit AnalysisData) : AnalysisData :=
  match r with
  | .ok d => d
  | .error _ => fallbackSnapshot

def entryAppJs : PerfEntry :=
  { name := "https://example.com/app.js", initiatorType := "script",
    transferSize := 20000, decodedBodySize := 50000, encodedBodySize := 20000,
    startTime := 0, responseEnd := 10, duration := 30 }

def entryLibJs : PerfEntry :=
  { name := "https://cdn.jsdelivr.net/lib.js", initiatorType := "script",
    transferSize := 1200, decodedBodySize := 3000, encodedBodySize := 1200,
    startTime := 0, responseEnd := 5, duration := 9 }

def envTwoScripts : PageEnv :=
  { pageEnvSimple with perfEntries := [entryAppJs, entryLibJs] }

def envOneInline : PageEnv :=
  { pageEnvSimple with inlineScriptTexts := ["eval(\"x\")"] }

def envInlineEvalPage : PageEnv :=
  { pageEnvSimple with inlineScriptTexts := ["eval(\"x\")"] }

/-- Two timing entries for the same resource where the transferred-size order
and the decoded-body-size order disagree. -/
def dupEntryHighTransfer : PerfEntry :=
  { name := "https://example.com/dup.js", initiatorType := "script",
    transferSize := 10, decodedBodySize := 0, encodedBodySize := 0,
    startTime := 0, responseEnd := 0, duration := 0 }

def dupEntryHighDecoded : PerfEntry :=
  { name := "https://example.com/dup.js", initiatorType := "script",
    transferSize := 5, decodedBodySize := 100, encodedBodySize := 0,
    startTime := 0, responseEnd := 0, duration := 0 }

/-- A same-name pair where the larger-transfer entry also dominates on
decoded size. -/
def dupEntryBig : PerfEntry :=
  { name := "https://example.com/dup2.js", initiatorType := "script",
    transferSize := 10, decodedBodySize := 50, encodedBodySize := 0,
    startTime := 0, responseEnd := 0, duration := 0 }

def dupEntrySmall : PerfEntry :=
  { name := "https://example.com/dup2.js", initiatorType := "script",
    transferSize := 5, decodedBodySize := 50, encodedBodySize := 0,
    startTime := 0, responseEnd := 0, duration := 0 }

def entryUnparsable : PerfEntry :=
  { name := "notaurl.js", initiatorType := "script", transferSize := 100,
    decodedBodySize := 0, encodedBodySize := 0, startTime := 0,
    responseEnd := 0, duration := 0 }

def envUnparsable : PageEnv :=
  { pageEnvSimple with perfEntries := [entryUnparsable] }

def throwingDetectors : List LibraryDetector :=
  [{ name := "Alpha", fires := .error (), versionResult := none },
   { name := "Beta", fires := .ok true, versionResult := some "1.0" }]

/-- An environment whose globals contain `jquerymin` but not `jquery`. -/
def envJqueryMin : PageEnv :=
  { pageEnvSimple with globalKeys := ["jquerymin"] }

def jqueryMinSrc : String := "https://cdn.example.com/jquery.min.js"

def jq340 : LibraryInfo :=
  { name := "jQuery", version := some "3.4.0", detected := true }

def jq200 : LibraryInfo :=
  { name := "jQuery", version := some "2.0.0", detected := true }

def jq350 : LibraryInfo :=
  { name := "jQuery", version := some "3.5.0", detected := true }

/-- A detected dependency whose version text is entirely non-numeric. -/
def libNoNumber : LibraryInfo :=
  { name := "jquery", version := some "abc", detected := true }

/-- The resource `collectScriptInfo` produces for `envUnparsable`. -/
def unparsableScriptRecord : ScriptInfo :=
  { src := "notaurl.js", size := 100, gzippedSize := 100, loadTime := 0,
    parseTime := 0, firstParty := false, host := "", isCDN := false,
    async := false, defer := false, module := false,
    potentiallyUnused := true, hasEval := false, untrustedDomain := true }

/-! ## Helper lemmas -/

theorem sumSizes_foldl_acc (l : List ScriptInfo) (a : Nat) :
    l.foldl (fun sum s => sum + s.size) a = a + sumSizes l := by
  induction l generalizing a with
  | nil => simp [sumSizes]
  | cons x xs ih =>
    simp only [sumSizes, List.foldl_cons]
    rw [ih, ih]
    omega

theorem sumSizes_cons (x : ScriptInfo) (l : List ScriptInfo) :
    sumSizes (x :: l) = x.size + sumSizes l := by
  rw [sumSizes, List.foldl_cons, sumSizes_foldl_acc]
  omega

theorem sumSizes_partition (l : List ScriptInfo) (p : ScriptInfo → Bool) :
    sumSizes (l.filter p) + sumSizes (l.filter (fun s => !p s)) = sumSizes l := by
  induction l with
  | nil => rfl
  | cons x xs ih =>
    cases hp : p x
    · simp only [List.filter_cons, hp, Bool.not_false, if_neg, ite_true,
        Bool.false_eq_true, if_false]
      rw [sumSizes_cons, sumSizes_cons]
      omega
    · simp only [List.filter_cons, hp, Bool.not_true, ite_true,
        Bool.false_eq_true, if_false]
      rw [sumSizes_cons, sumSizes_cons]
      omega

theorem length_filter_partition (l : List ScriptInfo) (p : ScriptInfo → Bool) :
    (l.filter p).length + (l.filter (fun s => !p s)).length = l.length := by
  induction l with
  | nil => rfl
  | cons x xs ih =>
    cases hp : p x <;>
      simp only [List.filter_cons, hp, Bool.not_false, Bool.not_true,
        ite_true, Bool.false_eq_true, if_false, List.length_cons] <;>
      omega

theorem length_pos_of_not_isEmpty (s : String) (h : s.isEmpty = false) :
    0 < s.length := by
  cases s with
  | mk data =>
    cases data with
    | nil => simp [String.isEmpty] at h
    | cons c cs => simp [String.length]

theorem processTimingEntry_size_pos (env : PageEnv) (e : PerfEntry)
    (s : ScriptInfo) (h : processTimingEntry env e = some s) : 0 < s.size := by
  simp only [processTimingEntry] at h
  split at h
  · rename_i hpos
    injection h with h
    subst h
    exact hpos
  · cases h

theorem processTagEntry_size_pos (env : PageEnv) (src : String)
    (pe : PerfEntry) (s : ScriptInfo)
    (h : processTagEntry env src pe = some s) : 0 < s.size := by
  simp only [processTagEntry] at h
  split at h
  · rename_i hpos
    injection h with h
    subst h
    exact hpos
  · cases h

/-! ## Claim theorems -/

/-- C1: every snapshot returned by `analyzePage` satisfies the strict
partition laws: `firstPartySize + thirdPartySize = totalSize` and
`firstPartyCount + thirdPartyCount = scripts.length`. -/
theorem analyzePage_partition (env : PageEnv) (d : AnalysisData)
    (h : analyzePage env = Except.ok d) :
    d.firstPartySize + d.thirdPartySize = d.totalSize ∧
    d.firstPartyCount + d.thirdPartyCount = d.scripts.length := by
  unfold analyzePage at h
  cases hdet : detectLibraries env.libraryDetectors with
  | error e => rw [hdet] at h; simp at h
  | ok libs =>
    rw [hdet] at h
    simp only [Except.ok.injEq] at h
    subst h
    exact ⟨sumSizes_partition _ _, length_filter_partition _ _⟩

theorem analyzePage_partition_witness :
    analyzePage envTwoScripts =
      Except.ok (forcedOk (analyzePage envTwoScripts)) ∧
    ((forcedOk (analyzePage envTwoScripts)).firstPartySize +
        (forcedOk (analyzePage envTwoScripts)).thirdPartySize =
      (forcedOk (analyzePage envTwoScripts)).totalSize ∧
     (forcedOk (analyzePage envTwoScripts)).firstPartyCount +
        (forcedOk (analyzePage envTwoScripts)).thirdPartyCount =
      (forcedOk (analyzePage envTwoScripts)).scripts.length) :=
  ⟨by rfl, analyzePage_partition envTwoScripts _ (by rfl)⟩

/-- C2: every `ScriptInfo` in the inventory produced by `collectScriptInfo`
has size strictly greater than zero — candidates whose resolved size is
zero are dropped, and recorded inline scripts have non-empty text. -/
theorem collectScriptInfo_size_pos (env : PageEnv) (s : ScriptInfo)
    (h : s ∈ collectScriptInfo env) : 0 < s.size := by
  unfold collectScriptInfo at h
  rcases List.mem_append.mp h with h12 | htag
  · rcases List.mem_append.mp h12 with hin | htm
    · unfold inlinePass at hin
      rcases List.mem_filterMap.mp hin with ⟨t, _, hf⟩
      by_cases he : t.isEmpty = true
      · simp [he] at hf
      · have he' : t.isEmpty = false := eq_false_of_ne_true he
        simp only [he', Bool.not_false, if_true] at hf
        by_cases hp : hasAnyEvalPattern t = true
        · simp only [hp, if_true] at hf
          injection hf with hf
          subst hf
          exact length_pos_of_not_isEmpty t he'
        · simp [hp] at hf
    · unfold timingPass at htm
      rcases List.mem_filterMap.mp htm with ⟨e, _, hf⟩
      exact processTimingEntry_size_pos env e s hf
  · unfold tagPass at htag
    rcases List.mem_filterMap.mp htag with ⟨tag, _, hf⟩
    split at hf
    · split at hf
      · cases hf
      · exact processTagEntry_size_pos env tag.src _ s hf
    · cases hf

theorem collectScriptInfo_size_pos_witness :
    mkInlineScript envOneInline "eval(\"x\")" ∈ collectScriptInfo envOneInline ∧
    0 < (mkInlineScript envOneInline "eval(\"x\")").size :=
  ⟨by decide, collectScriptInfo_size_pos envOneInline _ (by decide)⟩

/-- C3 counterexample: two same-name timing entries whose transferred-size
and decoded-body-size orders disagree.  Processed high-transfer first, the
reconciler replaces it with the *smaller*-transfer entry (its decoded body
size is larger), and the two processing orders keep different entries — the
claimed "larger transferred size, regardless of order" fails. -/
theorem dedup_larger_transfer_cex :
    buildScriptMap [dupEntryHighTransfer, dupEntryHighDecoded] =
      [("https://example.com/dup.js", dupEntryHighDecoded)] ∧
    dupEntryHighDecoded.transferSize < dupEntryHighTransfer.transferSize ∧
    buildScriptMap [dupEntryHighDecoded, dupEntryHighTransfer] =
      [("https://example.com/dup.js", dupEntryHighTransfer)] := by
  decide

/-- C3 (amended): for two script-like timing entries with the same name,
when the entry with the larger transferred size also has at least as large a
decoded body size, the reconciler keeps exactly that entry, in either
processing order.  (In general the kept entry depends on processing order,
because an entry also replaces the kept one when only its decoded body size
is larger.) -/
theorem scriptMap_dedup_keeps_larger (a b : PerfEntry)
    (hn : a.name = b.name)
    (ha : isScriptEntry a = true) (hb : isScriptEntry b = true)
    (ht : b.transferSize < a.transferSize)
    (hd : b.decodedBodySize ≤ a.decodedBodySize) :
    buildScriptMap [a, b] = [(a.name, a)] ∧
    buildScriptMap [b, a] = [(b.name, a)] := by
  obtain ⟨an, ai, atr, adec, aenc, ast, are, adu⟩ := a
  obtain ⟨bn, bi, btr, bdec, benc, bst, bre, bdu⟩ := b
  dsimp only at hn ht hd ⊢
  subst hn
  have h1 : ¬ (btr > atr) := by omega
  have h2 : ¬ (bdec > adec) := by omega
  have h3 : atr > btr := ht
  constructor
  · unfold buildScriptMap
    simp only [List.foldl_cons, List.foldl_nil, ha, hb, if_true]
    simp [scriptMapInsert, List.find?, h1, h2]
  · unfold buildScriptMap
    simp only [List.foldl_cons, List.foldl_nil, ha, hb, if_true]
    simp [scriptMapInsert, List.find?, h3]

theorem scriptMap_dedup_keeps_larger_witness :
    dupEntryBig.name = dupEntrySmall.name ∧
    isScriptEntry dupEntryBig = true ∧
    isScriptEntry dupEntrySmall = true ∧
    dupEntrySmall.transferSize < dupEntryBig.transferSize ∧
    dupEntrySmall.decodedBodySize ≤ dupEntryBig.decodedBodySize ∧
    (buildScriptMap [dupEntryBig, dupEntrySmall] =
      [(dupEntryBig.name, dupEntryBig)] ∧
     buildScriptMap [dupEntrySmall, dupEntryBig] =
      [(dupEntrySmall.name, dupEntryBig)]) :=
  ⟨rfl, by decide, by decide, by decide, by decide,
   scriptMap_dedup_keeps_larger dupEntryBig dupEntrySmall rfl
     (by decide) (by decide) (by decide) (by decide)⟩

theorem findVulnRule_isSome_iff (lv : String) (l : List VulnerableVersion) :
    (findVulnRule lv l).isSome = true ↔
      ∃ r ∈ l, r.versions.any (fun vv => versionTriggers lv vv) = true := by
  induction l with
  | nil => simp [findVulnRule]
  | cons r rest ih =>
    unfold findVulnRule
    by_cases h : r.versions.any (fun vv => versionTriggers lv vv) = true
    · simp [h]
      exact Or.inl (List.any_eq_true.mp h)
    · simp only [h, Bool.false_eq_true, if_false]
      rw [ih]
      constructor
      · rintro ⟨r', hr', hr'any⟩
        exact ⟨r', List.mem_cons_of_mem _ hr', hr'any⟩
      · rintro ⟨r', hr', hr'any⟩
        rcases List.mem_cons.mp hr' with rfl | hmem
        · exact absurd hr'any h
        · exact ⟨r', hmem, hr'any⟩

/-- C4: `isVersionVulnerable` flags a dependency (with a present version)
exactly when some rule with a case-insensitively matching library name lists
a version that the hyphen-normalized detected version equals, starts (as a
dotted prefix) with, or does not exceed under ordinal component comparison;
and against the built-in table, jQuery "3.4.0" and "2.0.0" are flagged while
"3.5.0" is not. -/
theorem isVersionVulnerable_spec (library : LibraryInfo)
    (rules : List VulnerableVersion) (v : String)
    (hv : library.version = some v) :
    ((isVersionVulnerable library rules).isSome = true ↔
      ∃ r ∈ rules, strToLower r.library = strToLower library.name ∧
        ∃ vv ∈ r.versions,
          (normalizeLibVersion v = vv ∨
           strStartsWith (normalizeLibVersion v) (vv ++ ".") = true ∨
           compareVersions (normalizeLibVersion v) vv ≤ 0)) ∧
    (isVersionVulnerable jq340 vulnerableVersions).isSome = true ∧
    (isVersionVulnerable jq200 vulnerableVersions).isSome = true ∧
    isVersionVulnerable jq350 vulnerableVersions = none := by
  refine ⟨?_, by decide, by decide, by decide⟩
  unfold isVersionVulnerable
  rw [hv]
  by_cases he : (rules.filter
      (fun r => strToLower r.library == strToLower library.name)).isEmpty = true
  · simp only [he, if_true]
    constructor
    · intro hfalse; simp at hfalse
    · rintro ⟨r, hr, hname, hvv⟩
      exfalso
      rw [List.isEmpty_iff] at he
      have hmem : r ∈ rules.filter
          (fun r => strToLower r.library == strToLower library.name) :=
        List.mem_filter.mpr ⟨hr, beq_iff_eq.mpr hname⟩
      rw [he] at hmem
      cases hmem
  · have he' : (rules.filter
        (fun r => strToLower r.library == strToLower library.name)).isEmpty
        = false := eq_false_of_ne_true he
    simp only [he', Bool.false_eq_true, if_false]
    rw [findVulnRule_isSome_iff]
    constructor
    · rintro ⟨r, hr, hany⟩
      have hmem := List.mem_filter.mp hr
      refine ⟨r, hmem.1, beq_iff_eq.mp hmem.2, ?_⟩
      rcases List.any_eq_true.mp hany with ⟨vv, hvvmem, htr⟩
      refine ⟨vv, hvvmem, ?_⟩
      simpa only [versionTriggers, Bool.or_eq_true, beq_iff_eq,
        decide_eq_true_eq, or_assoc] using htr
    · rintro ⟨r, hr, hname, vv, hvv, hdis⟩
      refine ⟨r, List.mem_filter.mpr ⟨hr, beq_iff_eq.mpr hname⟩,
        List.any_eq_true.mpr ⟨vv, hvv, ?_⟩⟩
      rcases hdis with h | h | h <;> simp [versionTriggers, h]

theorem isVersionVulnerable_spec_witness :
    jq340.version = some "3.4.0" ∧
    (isVersionVulnerable jq340 vulnerableVersions).isSome = true :=
  ⟨rfl, (isVersionVulnerable_spec jq340 vulnerableVersions "3.4.0" rfl).2.1⟩

/-- C5 (code bug): a page whose only script is the inline text
`eval("x")` — the text matches the dynamic-code pattern set, but the final
single `"inline"` resource of the snapshot has `hasEval = false`, because
`checkScriptsForEval` re-checks the `"inline"` sentinel by fetching a URL
literally named `inline` (which fails) and overwrites the flag; no
eval-usage finding is emitted either. -/
theorem inline_eval_flag_lost :
    hasAnyEvalPattern "eval(\"x\")" = true ∧
    (analyzePage envInlineEvalPage).toOption.map
        (fun d => d.scripts.map (fun s => (s.src, s.hasEval))) =
      some [("inline", false)] ∧
    (analyzePage envInlineEvalPage).toOption.map
        (fun d => d.securityIssues.filter
          (fun i => i.type == IssueType.eval_usage)) =
      some [] := by
  refine ⟨by decide, by decide, by decide⟩

/-- C6 counterexample: a detector table whose first predicate throws and
whose second fires.  `detectLibraries` propagates the exception: the pass
aborts with no results, instead of completing with the second
detector result. -/
theorem detectLibraries_throw_cex :
    detectLibraries throwingDetectors = .error () ∧
    detectLibraries throwingDetectors ≠
      .ok [{ name := "Beta", version := some "1.0", detected := true }] := by
  refine ⟨rfl, fun h => ?_⟩
  exact Except.noConfusion h

theorem runLibraryDetectors_error (dets : List LibraryDetector) :
    (∃ d ∈ dets, d.fires = .error ()) →
      runLibraryDetectors dets = .error () := by
  induction dets with
  | nil => rintro ⟨d, hd, _⟩; cases hd
  | cons d rest ih =>
    rintro ⟨d', hd', hf⟩
    rcases List.mem_cons.mp hd' with rfl | hmem
    · unfold runLibraryDetectors
      rw [hf]
    · unfold runLibraryDetectors
      cases hfir : d.fires with
      | error e => cases e; rfl
      | ok b =>
        have ih' := ih ⟨d', hmem, hf⟩
        cases b
        · simp [ih']
        · simp [ih']

/-- C6 (amended): a library detector whose predicate throws aborts the
whole `detectLibraries` pass — the exception propagates, no later detector
is evaluated, and no library list is produced. -/
theorem detectLibraries_throw_aborts (dets : List LibraryDetector)
    (h : ∃ d ∈ dets, d.fires = .error ()) :
    detectLibraries dets = .error () := by
  unfold detectLibraries
  rw [runLibraryDetectors_error dets h]

theorem detectLibraries_throw_aborts_witness :
    (∃ d ∈ throwingDetectors, d.fires = .error ()) ∧
    detectLibraries throwingDetectors = .error () :=
  ⟨⟨{ name := "Alpha", fires := .error (), versionResult := none },
    List.mem_cons_self _ _, rfl⟩,
   detectLibraries_throw_aborts throwingDetectors
    ⟨{ name := "Alpha", fires := .error (), versionResult := none },
      List.mem_cons_self _ _, rfl⟩⟩

/-- C7 counterexample: the timing entry named `notaurl.js` fails URL
parsing; the produced resource carries the *empty string* as host (and is
not first-party), not the raw source string the claim requires. -/
theorem classify_parse_failure_cex :
    parseAbsoluteURL "notaurl.js" = none ∧
    collectScriptInfo envUnparsable = [unparsableScriptRecord] ∧
    unparsableScriptRecord.host = "" ∧
    unparsableScriptRecord.firstParty = false ∧
    unparsableScriptRecord.host ≠ unparsableScriptRecord.src := by
  refine ⟨by decide, by decide, rfl, rfl, by decide⟩

/-- C7 (amended): a timing resource whose source string fails URL parsing is
produced with the empty string as host, first-party false and CDN false (and
is consequently marked as loaded from an untrusted domain). -/
theorem processTimingEntry_parse_failure (env : PageEnv) (e : PerfEntry)
    (s : ScriptInfo) (hp : parseAbsoluteURL e.name = none)
    (h : processTimingEntry env e = some s) :
    s.host = "" ∧ s.firstParty = false ∧ s.isCDN = false ∧
    s.untrustedDomain = true := by
  simp only [processTimingEntry, hp] at h
  split at h
  · injection h with h
    subst h
    exact ⟨rfl, rfl, rfl, rfl⟩
  · cases h

theorem processTimingEntry_parse_failure_witness :
    parseAbsoluteURL entryUnparsable.name = none ∧
    processTimingEntry envUnparsable entryUnparsable =
      some unparsableScriptRecord ∧
    (unparsableScriptRecord.host = "" ∧
     unparsableScriptRecord.firstParty = false ∧
     unparsableScriptRecord.isCDN = false ∧
     unparsableScriptRecord.untrustedDomain = true) :=
  ⟨by decide, by decide,
   processTimingEntry_parse_failure envUnparsable entryUnparsable
     unparsableScriptRecord (by decide) (by decide)⟩

/-- C8 counterexample: for `https://cdn.example.com/jquery.min.js` the code
derives the probe identifier `jquery` (the segment cut at its *first* dot),
while the procedure of the claim (extension stripped) derives `jquerymin`;
on a
page whose globals contain `jquerymin` but not `jquery`, the code flags the
script as potentially unused while the claimed procedure does not flag it. -/
theorem unused_key_extension_cex :
    inferGlobalKey envJqueryMin jqueryMinSrc = some "jquery" ∧
    claimUnusedKey envJqueryMin jqueryMinSrc = some "jquerymin" ∧
    isLikelyUnused envJqueryMin false jqueryMinSrc = true ∧
    claimUnusedFlag envJqueryMin false jqueryMinSrc = false := by
  refine ⟨by decide, by decide, by decide, by decide⟩

/-- C8 (amended): the potentially-unused flag is computed by taking the
final path segment of the URL, keeping only the part before its *first*
dot, removing all characters other than alphanumerics, underscore and
dollar, and — when the resulting identifier is at least 3 characters — it is
set exactly when that identifier is absent from the global namespace;
first-party resources and shorter identifiers are never flagged
(`amendedUnusedFlag` spells out that procedure). -/
theorem isLikelyUnused_amended_spec (env : PageEnv) (firstParty : Bool)
    (src : String) :
    isLikelyUnused env firstParty src = amendedUnusedFlag env firstParty src := by
  have hkey : inferGlobalKey env src = amendedUnusedKey env src := rfl
  unfold isLikelyUnused amendedUnusedFlag
  rw [hkey]
  cases firstParty
  · cases hk : amendedUnusedKey env src with
    | none => simp
    | some k => cases hc : env.globalKeys.contains k <;> simp [hc]
  · simp

theorem inlineFilterMap_eq (env : PageEnv) (l : List String) :
    (l.filterMap (fun text =>
      if !text.isEmpty then
        if hasAnyEvalPattern text then some (mkInlineScript env text)
        else none
      else none)) =
    (l.filter hasAnyEvalPattern).map (mkInlineScript env) := by
  induction l with
  | nil => rfl
  | cons t ts ih =>
    rw [List.filterMap_cons, List.filter_cons]
    by_cases he : t.isEmpty = true
    · have ht : hasAnyEvalPattern t = false := by
        have h0 : t = "" := (String.isEmpty_iff t).mp he
        subst h0
        rfl
      have h1 : (if !t.isEmpty then
          if hasAnyEvalPattern t then some (mkInlineScript env t)
          else none
        else none) = none := by
        rw [he]
        rfl
      rw [h1, ht]
      simpa using ih
    · have he' : t.isEmpty = false := eq_false_of_ne_true he
      have h1 : (if !t.isEmpty then
          if hasAnyEvalPattern t then some (mkInlineScript env t)
          else none
        else none) =
          (if hasAnyEvalPattern t then some (mkInlineScript env t)
           else none) := by
        rw [he']
        rfl
      rw [h1]
      by_cases hp : hasAnyEvalPattern t = true
      · rw [hp]
        simpa using ih
      · have hp' : hasAnyEvalPattern t = false := eq_false_of_ne_true hp
        rw [hp']
        simpa using ih

/-- C9: `collectScriptInfo` records an inline script exactly when its text
matches the dynamic-code pattern set, and every recorded inline resource is
`mkInlineScript`: size and gzippedSize equal to the text length, first-party
with the document hostname as host, and async/defer/module and
untrusted-domain all false; pattern-free inline scripts contribute
nothing to the inventory. -/
theorem collectScriptInfo_inline_spec (env : PageEnv) :
    collectScriptInfo env =
      (env.inlineScriptTexts.filter hasAnyEvalPattern).map
        (mkInlineScript env) ++ timingPass env ++ tagPass env ∧
    ∀ text : String,
      (mkInlineScript env text).size = text.length ∧
      (mkInlineScript env text).gzippedSize = text.length ∧
      (mkInlineScript env text).firstParty = true ∧
      (mkInlineScript env text).host = env.locationHostname ∧
      (mkInlineScript env text).async = false ∧
      (mkInlineScript env text).defer = false ∧
      (mkInlineScript env text).module = false ∧
      (mkInlineScript env text).untrustedDomain = false := by
  constructor
  · unfold collectScriptInfo inlinePass
    rw [inlineFilterMap_eq env env.inlineScriptTexts]
  · intro text
    exact ⟨rfl, rfl, rfl, rfl, rfl, rfl, rfl, rfl⟩

/-- C10 counterexample: a non-numeric version component is not treated as
comparing equal to every other component — it is read as `0`, so `"abc"`
compares strictly *less* than `"1"` (and `"1"` strictly greater than
`"abc"`), not equal. -/
theorem compareVersions_nonNumeric_cex :
    compareVersions "abc" "1" = -1 ∧
    compareVersions "1" "abc" = 1 ∧
    strToNatOpt "abc" = none := by
  refine ⟨by decide, by decide, by decide⟩

theorem cmpParts_head_lt (l : List Nat) (b : Nat) (bs : List Nat)
    (hl : l.headD 0 = 0) (hb : 0 < b) : cmpParts l (b :: bs) = -1 := by
  cases l with
  | nil =>
    unfold cmpParts cmpZeros
    have h1 : ¬ (0 > b) := by omega
    rw [if_neg h1, if_pos hb]
  | cons a as =>
    simp only [List.headD_cons] at hl
    subst hl
    unfold cmpParts
    have h1 : ¬ ((0 : Nat) > b) := by omega
    rw [if_neg h1, if_pos hb]

theorem versionParts_headD_zero (v : String)
    (h : strToNatOpt (((splitOnChar '.' v).head?).getD "") = none) :
    (versionParts v).headD 0 = 0 := by
  unfold versionParts
  cases hs : splitOnChar '.' v with
  | nil => simp
  | cons c cs =>
    rw [hs] at h
    simp only [List.head?_cons, Option.getD_some] at h
    simp [versionPartValue, h]

theorem versionTriggers_of_first_pos (lv vv : String)
    (hlv : (versionParts lv).headD 0 = 0)
    (hvv : ∃ b bs, versionParts vv = b :: bs ∧ 0 < b) :
    versionTriggers lv vv = true := by
  rcases hvv with ⟨b, bs, hvv, hb⟩
  have hc : compareVersions lv vv = -1 := by
    unfold compareVersions
    rw [hvv]
    exact cmpParts_head_lt _ b bs hlv hb
  simp [versionTriggers, hc]

theorem rule_triggers_zero_head (lv : String)
    (hlv : (versionParts lv).headD 0 = 0)
    (r : VulnerableVersion) (hr : r ∈ vulnerableVersions) :
    r.versions.any (fun vv => versionTriggers lv vv) = true := by
  simp only [vulnerableVersions, List.mem_cons, List.not_mem_nil,
    or_false] at hr
  rcases hr with rfl | rfl | rfl | rfl | rfl
  · exact List.any_eq_true.mpr ⟨"1.0.0", by decide,
      versionTriggers_of_first_pos lv "1.0.0" hlv ⟨1, [0, 0], by decide, by decide⟩⟩
  · exact List.any_eq_true.mpr ⟨"4.17.0", by decide,
      versionTriggers_of_first_pos lv "4.17.0" hlv ⟨4, [17, 0], by decide, by decide⟩⟩
  · exact List.any_eq_true.mpr ⟨"2.0.0", by decide,
      versionTriggers_of_first_pos lv "2.0.0" hlv ⟨2, [0, 0], by decide, by decide⟩⟩
  · exact List.any_eq_true.mpr ⟨"1.0.0", by decide,
      versionTriggers_of_first_pos lv "1.0.0" hlv ⟨1, [0, 0], by decide, by decide⟩⟩
  · exact List.any_eq_true.mpr ⟨"15.0.0", by decide,
      versionTriggers_of_first_pos lv "15.0.0" hlv ⟨15, [0, 0], by decide, by decide⟩⟩

/-- C10 (amended): `compareVersions` reads any non-numeric version
component as `0` (the `|| 0` default applied to the `NaN` that `Number`
yields); consequently, a detected dependency whose name matches a rule of
the built-in table and whose normalized version has a non-numeric (or
empty) first component always yields a match — the first rule for that
name — whatever the version text. -/
theorem vuln_nonNumeric_first_comp (library : LibraryInfo) (v : String)
    (hv : library.version = some v)
    (hname : vulnerableVersions.filter
      (fun r => strToLower r.library == strToLower library.name) ≠ [])
    (hnan : strToNatOpt
      (((splitOnChar '.' (normalizeLibVersion v)).head?).getD "") = none) :
    isVersionVulnerable library vulnerableVersions =
      (vulnerableVersions.filter
        (fun r => strToLower r.library == strToLower library.name)).head? := by
  unfold isVersionVulnerable
  rw [hv]
  cases hf : vulnerableVersions.filter
      (fun r => strToLower r.library == strToLower library.name) with
  | nil => exact absurd hf hname
  | cons r rest =>
    simp only [hf, List.isEmpty_cons, Bool.false_eq_true, if_false,
      List.head?_cons]
    have hr : r ∈ vulnerableVersions := by
      have hmem : r ∈ r :: rest := List.mem_cons_self _ _
      rw [← hf] at hmem
      exact (List.mem_filter.mp hmem).1
    have hany := rule_triggers_zero_head (normalizeLibVersion v)
      (versionParts_headD_zero _ hnan) r hr
    unfold findVulnRule
    simp [hany]

theorem vuln_nonNumeric_first_comp_witness :
    libNoNumber.version = some "abc" ∧
    vulnerableVersions.filter
      (fun r => strToLower r.library == strToLower libNoNumber.name) ≠ [] ∧
    strToNatOpt
      (((splitOnChar '.' (normalizeLibVersion "abc")).head?).getD "") = none ∧
    isVersionVulnerable libNoNumber vulnerableVersions =
      (vulnerableVersions.filter
        (fun r => strToLower r.library == strToLower libNoNumber.name)).head? :=
  ⟨rfl, by decide, by decide,
   vuln_nonNumeric_first_comp libNoNumber "abc" rfl (by decide) (by decide)⟩

end Tide
